import Mathlib

/-!
Verification of the High-Conviction Ultra-Profit trading strategy
(`your-strategy-template/your_strategy.py`).

Shallow embedding notes:
* Python floats are modelled as exact rationals (`ℚ`); the properties checked
  here are control-flow and exact-arithmetic properties.
* `datetime` values are modelled as rational numbers of seconds since the
  epoch; `timedelta` arithmetic becomes rational subtraction.  ISO export at
  seconds precision (`isoformat(timespec="seconds")`) becomes truncation to
  the integer floor.
* `math.sqrt` (and the square root inside `statistics.pstdev`) has no exact
  rational counterpart, so every definition that transitively needs it takes
  an explicit parameter `sqrtFn : ℚ → ℚ` standing for the library square
  root.  Theorems either hold for every `sqrtFn` (control-flow facts that do
  not depend on the root's value) or are evaluated at inputs whose variances
  are perfect squares, where `sqrtFn`'s required values are exact.
* Python list slicing `l[i:]` (used as `l[-n:]` throughout the source) is
  modelled by `pySliceFrom`, including Python's behaviour at `-0` (the whole
  list) and its clamping of out-of-range starts.
* The diagnostic reason strings built with f-strings are modelled by an
  inductive `Reason` whose constructors are in 1-1 correspondence with the
  string templates of the source; the fixed keyword of each template is
  recoverable through `Reason.tag`.
-/

namespace HighConviction

/-- Python `l[i:]` for an arbitrary integer start index: a negative start
counts from the end and is clamped to the beginning of the list. -/
def pySliceFrom (l : List α) (i : ℤ) : List α :=
  l.drop (if i < 0 then ((l.length : ℤ) + i).toNat else i.toNat)

/-- Python `l[-n:]` (note that `l[-0:]` is the whole list). -/
def pyLast (l : List α) (n : ℕ) : List α :=
  pySliceFrom l (-(n : ℤ))

/-- Configuration surface of the strategy, with the defaults of `__init__`.
Integer-valued Python config entries are modelled as `ℕ` (the source always
uses them as non-negative counts / window lengths);
`min_time_between_trades` is in hours. -/
structure Config where
  conviction_threshold : ℚ := 9/10
  rsi_period : ℕ := 14
  rsi_overbought : ℚ := 80
  rsi_oversold : ℚ := 20
  bb_period : ℕ := 20
  bb_std : ℚ := 2
  macd_fast : ℕ := 12
  macd_slow : ℕ := 26
  macd_signal : ℕ := 9
  base_position_pct : ℚ := 15/100
  max_position_pct : ℚ := 4/10
  conviction_position_multiplier : ℚ := 2
  stop_loss_pct : ℚ := 3/100
  take_profit_pct : ℚ := 15/100
  trailing_stop_pct : ℚ := 5/100
  max_drawdown_pct : ℚ := 2/10
  consecutive_loss_limit : ℕ := 2
  max_trades : ℕ := 30
  min_time_between_trades : ℚ := 6
  deriving DecidableEq, Repr

/-- The default configuration (every `config.get` falls back to its default). -/
def defaultConfig : Config := {}

/-- Immutable per-call market input (`MarketSnapshot`): the fields the
strategy reads. -/
structure MarketSnapshot where
  current_price : ℚ
  prices : List ℚ
  deriving DecidableEq, Repr

/-- Immutable per-call portfolio input: the fields the strategy reads. -/
structure Portfolio where
  cash : ℚ
  quantity : ℚ
  deriving DecidableEq, Repr

/-- Signal actions (`Signal(action, ...)` with action one of
"buy"/"sell"/"hold"). -/
inductive Action where
  | buy
  | sell
  | hold
  deriving DecidableEq, Repr

/-- The tags appended to `reasons` inside `_high_conviction_signal`, each
carrying the numeric payload interpolated into the corresponding f-string. -/
inductive ConvReason where
  | rsi_oversold (rsi : ℚ)
  | rsi_overbought (rsi : ℚ)
  | bb_oversold (score : ℚ)
  | bb_overbought (score : ℚ)
  | macd_bullish (score : ℚ)
  | macd_bearish (score : ℚ)
  deriving DecidableEq, Repr

/-- Second component of `_high_conviction_signal`'s result:
`"insufficient_data"`, `"no_conviction"`, or the `"|"`-joined tag list. -/
inductive ConvictionReason where
  | insufficient_data
  | no_conviction
  | tags (l : List ConvReason)
  deriving DecidableEq, Repr

/-- Second component of `_check_trade_limits`'s result. -/
inductive TradeLimitReason where
  | ok
  | max_trades_reached
  | min_time_not_met (hours : ℚ)
  deriving DecidableEq, Repr

/-- The reason strings produced by `generate_signal`, one constructor per
f-string template of the source, with the interpolated numbers as payloads. -/
inductive Reason where
  | insufficient_price_data
  | trade_limit (r : TradeLimitReason)
  | drawdown_limit_exceeded
  | low_conviction (score : ℚ)
  | conviction (r : ConvictionReason) (score : ℚ)
  | already_in_long_position
  | no_long_position_to_sell
  | trailing_stop_triggered (high current : ℚ)
  | stop_loss_triggered (loss : ℚ)
  | take_profit_triggered (profit : ℚ)
  | time_based_exit
  | insufficient_cash
  | invalid_size
  | no_position_to_sell
  deriving DecidableEq, Repr

/-- The fixed keyword of the string template behind each reason (the part of
the Python string that does not depend on interpolated values). -/
def Reason.tag : Reason → String
  | .insufficient_price_data => "Insufficient price data"
  | .trade_limit .ok => "Trade limit: ok"
  | .trade_limit .max_trades_reached => "Trade limit: max_trades_reached"
  | .trade_limit (.min_time_not_met _) => "Trade limit: min_time_between_trades_not_met"
  | .drawdown_limit_exceeded => "Drawdown limit exceeded"
  | .low_conviction _ => "Low conviction"
  | .conviction _ _ => "CONVICTION"
  | .already_in_long_position => "already_in_long_position"
  | .no_long_position_to_sell => "no_long_position_to_sell"
  | .trailing_stop_triggered _ _ => "TRAILING_STOP_TRIGGERED"
  | .stop_loss_triggered _ => "STOP_LOSS_TRIGGERED"
  | .take_profit_triggered _ => "TAKE_PROFIT_TRIGGERED"
  | .time_based_exit => "TIME_BASED_EXIT"
  | .insufficient_cash => "Insufficient cash"
  | .invalid_size => "Invalid position size"
  | .no_position_to_sell => "No position to sell"

/-- `is_stop_loss = "STOP_LOSS" in reason or "TRAILING_STOP" in reason`
(line 482): among all reason strings the source can build, exactly the
stop-loss and trailing-stop templates contain those substrings. -/
def Reason.isStopOrTrailing : Reason → Bool
  | .trailing_stop_triggered _ _ => true
  | .stop_loss_triggered _ => true
  | _ => false

/-- The decision output (`Signal`): action, optional size, reason. -/
structure Signal where
  action : Action
  size : Option ℚ := none
  reason : Reason
  deriving DecidableEq, Repr

/-- Mutable strategy state (the `self._*` fields of the class).
Timestamps are rational seconds. -/
structure StrategyState where
  last_signal : Option Action
  entry_price : Option ℚ
  entry_time : Option ℚ
  trailing_high : Option ℚ
  trailing_low : Option ℚ
  consecutive_losses : ℕ
  peak_portfolio_value : ℚ
  price_history : List ℚ
  win_loss_history : List Bool
  trade_count : ℕ
  last_trade_time : Option ℚ
  recent_performance_score : ℚ
  deriving DecidableEq, Repr

/-- The state installed by `__init__`. -/
def initialState : StrategyState where
  last_signal := none
  entry_price := none
  entry_time := none
  trailing_high := none
  trailing_low := none
  consecutive_losses := 0
  peak_portfolio_value := 0
  price_history := []
  win_loss_history := []
  trade_count := 0
  last_trade_time := none
  recent_performance_score := 1

/-- Python truthiness of an optional float (`if self._entry_price:`):
`None` and `0.0` are falsy. -/
def truthyQ : Option ℚ → Bool
  | none => false
  | some q => q ≠ 0

/-- `_calculate_sma(prices, window)`. -/
def _calculate_sma (prices : List ℚ) (window : ℕ) : Option ℚ :=
  if prices.length < window then none
  else some ((pyLast prices window).sum / (window : ℚ))

/-- `deltas = [prices[i] - prices[i-1] for i in range(1, len(prices))]`. -/
def rsiDeltas (prices : List ℚ) : List ℚ :=
  List.zipWith (fun a b => a - b) prices.tail prices

/-- `gains = [delta if delta > 0 else 0 for delta in deltas[-period:]]`. -/
def rsiGains (prices : List ℚ) (period : ℕ) : List ℚ :=
  (pyLast (rsiDeltas prices) period).map (fun d => if 0 < d then d else 0)

/-- `losses = [-delta if delta < 0 else 0 for delta in deltas[-period:]]`. -/
def rsiLosses (prices : List ℚ) (period : ℕ) : List ℚ :=
  (pyLast (rsiDeltas prices) period).map (fun d => if d < 0 then -d else 0)

/-- `avg_gain = sum(gains) / period`. -/
def rsiAvgGain (prices : List ℚ) (period : ℕ) : ℚ :=
  (rsiGains prices period).sum / (period : ℚ)

/-- `avg_loss = sum(losses) / period`. -/
def rsiAvgLoss (prices : List ℚ) (period : ℕ) : ℚ :=
  (rsiLosses prices period).sum / (period : ℚ)

/-- `_calculate_rsi(prices, period)`. -/
def _calculate_rsi (prices : List ℚ) (period : ℕ) : Option ℚ :=
  if prices.length < period + 1 then none
  else
    let avg_gain := rsiAvgGain prices period
    let avg_loss := rsiAvgLoss prices period
    if avg_loss = 0 then some (if 0 < avg_gain then 100 else 50)
    else
      let rs := avg_gain / avg_loss
      some (100 - 100 / (1 + rs))

/-- `_calculate_bollinger_bands(prices, period, std_dev)`;
`sqrtFn` stands for `math.sqrt`. -/
def _calculate_bollinger_bands (sqrtFn : ℚ → ℚ) (prices : List ℚ)
    (period : ℕ) (std_dev : ℚ) : Option (ℚ × ℚ × ℚ) :=
  if prices.length < period then none
  else
    match _calculate_sma prices period with
    | none => none
    | some middle_band =>
      let variance := ((pyLast prices period).map
        (fun price => (price - middle_band) ^ 2)).sum / (period : ℚ)
      let std_deviation := sqrtFn variance
      let upper_band := middle_band + std_dev * std_deviation
      let lower_band := middle_band - std_dev * std_deviation
      some (middle_band, upper_band, lower_band)

/-- The nested `_calculate_ema(data, period)` of `_calculate_macd`:
seeded with `data[-period]`, folded over `data[-period+1:]`. -/
def _calculate_ema (data : List ℚ) (period : ℕ) : Option ℚ :=
  if data.length < period then none
  else
    let k : ℚ := 2 / (period + 1)
    let seed := (pySliceFrom data (-(period : ℤ))).headD 0
    let rest := pySliceFrom data (-(period : ℤ) + 1)
    some (rest.foldl (fun ema price => price * k + ema * (1 - k)) seed)

/-- `_calculate_macd(prices, fast_period, slow_period, signal_period)`. -/
def _calculate_macd (prices : List ℚ) (fast_period slow_period signal_period : ℕ) :
    Option (ℚ × ℚ × ℚ) :=
  if prices.length < slow_period + signal_period then none
  else
    match _calculate_ema prices fast_period, _calculate_ema prices slow_period with
    | some fast_ema, some slow_ema =>
      let macd_line := fast_ema - slow_ema
      match _calculate_ema (List.replicate signal_period (fast_ema - slow_ema))
          signal_period with
      | none => none
      | some signal_line => some (macd_line, signal_line, macd_line - signal_line)
    | _, _ => none

/-- `statistics.pstdev`: population standard deviation, `sqrtFn` standing for
the square root it takes. -/
def pstdev (sqrtFn : ℚ → ℚ) (xs : List ℚ) : ℚ :=
  let m := xs.sum / (xs.length : ℚ)
  sqrtFn ((xs.map (fun x => (x - m) ^ 2)).sum / (xs.length : ℚ))

/-- `_calculate_volatility(prices, window)` (note: it returns the number `0`,
not `None`, when fewer than two returns are available). -/
def _calculate_volatility (sqrtFn : ℚ → ℚ) (prices : List ℚ) (window : ℕ) :
    Option ℚ :=
  if prices.length < window then none
  else
    let window_prices := pyLast prices window
    let returns := ((window_prices.zip window_prices.tail).filter
      (fun pc => 0 < pc.1)).map (fun pc => (pc.2 - pc.1) / pc.1)
    if returns.length < 2 then some 0
    else some (pstdev sqrtFn returns)

/-- The RSI block of `_high_conviction_signal` (source lines 234-246), acting
on the running `(conviction_score, reasons)` accumulator. -/
def rsiStage (cfg : Config) (market : MarketSnapshot)
    (acc : ℚ × List ConvReason) : ℚ × List ConvReason :=
  match _calculate_rsi market.prices cfg.rsi_period with
  | none => acc
  | some rsi =>
    if rsi < cfg.rsi_oversold then
      let rsi_score := (cfg.rsi_oversold - rsi) / cfg.rsi_oversold
      (acc.1 + rsi_score * (4/10), acc.2 ++ [.rsi_oversold rsi])
    else if cfg.rsi_overbought < rsi then
      let rsi_score := (rsi - cfg.rsi_overbought) / (100 - cfg.rsi_overbought)
      (acc.1 - rsi_score * (4/10), acc.2 ++ [.rsi_overbought rsi])
    else acc

/-- The Bollinger-band block of `_high_conviction_signal` (lines 248-261). -/
def bbStage (sqrtFn : ℚ → ℚ) (cfg : Config) (market : MarketSnapshot)
    (acc : ℚ × List ConvReason) : ℚ × List ConvReason :=
  match _calculate_bollinger_bands sqrtFn market.prices cfg.bb_period cfg.bb_std with
  | none => acc
  | some (_, upper_band, lower_band) =>
    let current_price := market.current_price
    if current_price < lower_band then
      let bb_score := min 1 ((lower_band - current_price) / lower_band * 2)
      (acc.1 + bb_score * (3/10), acc.2 ++ [.bb_oversold bb_score])
    else if upper_band < current_price then
      let bb_score := min 1 ((current_price - upper_band) / upper_band * 2)
      (acc.1 - bb_score * (3/10), acc.2 ++ [.bb_overbought bb_score])
    else acc

/-- The MACD block of `_high_conviction_signal` (lines 263-276). -/
def macdStage (cfg : Config) (market : MarketSnapshot)
    (acc : ℚ × List ConvReason) : ℚ × List ConvReason :=
  match _calculate_macd market.prices cfg.macd_fast cfg.macd_slow cfg.macd_signal with
  | none => acc
  | some (macd_line, signal_line, histogram) =>
    if 0 < histogram ∧ signal_line < macd_line then
      let macd_score := min 1 (histogram * 10)
      (acc.1 + macd_score * (3/10), acc.2 ++ [.macd_bullish macd_score])
    else if histogram < 0 ∧ macd_line < signal_line then
      let macd_score := min 1 (|histogram| * 10)
      (acc.1 - macd_score * (3/10), acc.2 ++ [.macd_bearish macd_score])
    else acc

/-- `_high_conviction_signal(market)`: insufficient-data gate followed by the
three sequential indicator blocks. -/
def _high_conviction_signal (sqrtFn : ℚ → ℚ) (cfg : Config)
    (market : MarketSnapshot) : ℚ × ConvictionReason :=
  if market.prices.length < max cfg.rsi_period (max cfg.bb_period cfg.macd_slow) then
    (0, .insufficient_data)
  else
    let acc := macdStage cfg market (bbStage sqrtFn cfg market
      (rsiStage cfg market (0, [])))
    (acc.1, if acc.2 = [] then .no_conviction else .tags acc.2)

/-- The conviction-based scaling factor of the sizer (lines 287-292). -/
def positionFactor (cfg : Config) (conviction_score : ℚ) : ℚ :=
  if 9/10 ≤ conviction_score then cfg.conviction_position_multiplier
  else if 8/10 ≤ conviction_score then 3/2
  else 1

/-- The recent-performance factor of the sizer (lines 295-302). -/
def performanceFactor (win_loss_history : List Bool) : ℚ :=
  if 5 ≤ win_loss_history.length then
    let recent_win_rate :=
      ((pyLast win_loss_history 5).map (fun b => if b then (1 : ℚ) else 0)).sum / 5
    if recent_win_rate < 4/5 then 7/10 else 1
  else 1

/-- The volatility factor of the sizer (lines 305-314). -/
def volFactor (sqrtFn : ℚ → ℚ) (prices : List ℚ) : ℚ :=
  match _calculate_volatility sqrtFn prices 20 with
  | some current_vol =>
    if 3/100 < current_vol then 8/10
    else if current_vol < 1/100 then 12/10
    else 1
  | none => 1

/-- `_calculate_optimal_position_size(market, portfolio_value,
conviction_score)`; the win/loss history read from `self` is passed
explicitly.  (`portfolio_value` is accepted but, as in the source, unused.) -/
def _calculate_optimal_position_size (sqrtFn : ℚ → ℚ) (cfg : Config)
    (win_loss_history : List Bool) (market : MarketSnapshot)
    (_portfolio_value conviction_score : ℚ) : ℚ :=
  let optimal_size := cfg.base_position_pct * positionFactor cfg conviction_score *
    performanceFactor win_loss_history * volFactor sqrtFn market.prices
  max (5/100) (min cfg.max_position_pct optimal_size)

/-- `_check_trade_limits(now)`. -/
def _check_trade_limits (cfg : Config) (s : StrategyState) (now : ℚ) :
    Bool × TradeLimitReason :=
  if cfg.max_trades ≤ s.trade_count then (false, .max_trades_reached)
  else
    match s.last_trade_time with
    | some t =>
      let time_since_last := now - t
      if time_since_last < cfg.min_time_between_trades * 3600 then
        (false, .min_time_not_met (time_since_last / 3600))
      else (true, .ok)
    | none => (true, .ok)

/-- `_check_drawdown_limits(portfolio_value)`; the method mutates `self`
(peak value, consecutive losses), so it returns the updated state. -/
def _check_drawdown_limits (cfg : Config) (s : StrategyState)
    (portfolio_value : ℚ) : Bool × StrategyState :=
  if s.peak_portfolio_value = 0 then
    (true, { s with peak_portfolio_value := portfolio_value })
  else
    let s := if s.peak_portfolio_value < portfolio_value then
        { s with peak_portfolio_value := portfolio_value, consecutive_losses := 0 }
      else s
    let drawdown := (s.peak_portfolio_value - portfolio_value) / s.peak_portfolio_value
    let s :=
      if s.last_signal = some Action.sell ∧ truthyQ s.entry_price ∧
          portfolio_value < s.entry_price.getD 0 then
        { s with consecutive_losses := s.consecutive_losses + 1 }
      else if s.last_signal = some Action.buy ∧ truthyQ s.entry_price ∧
          s.entry_price.getD 0 < portfolio_value then
        { s with consecutive_losses := 0 }
      else s
    if cfg.consecutive_loss_limit ≤ s.consecutive_losses then (false, s)
    else if cfg.max_drawdown_pct < drawdown then (false, s)
    else (true, s)

/-- The risk-management override block of `generate_signal` (source lines
421-450): trailing-stop / stop-loss / take-profit / time-based-exit checks,
acting on the current state and the candidate (action, reason) pair `fr`
computed by the position-management step.  Returns the (possibly updated)
state together with the final (action, reason). -/
def riskOverrides (cfg : Config) (s : StrategyState) (current_price now : ℚ)
    (fr : Action × Reason) : StrategyState × Action × Reason :=
  if s.last_signal = some Action.buy ∧ s.entry_price ≠ none then
    let entry := s.entry_price.getD 0
    let price_change_pct := (current_price - entry) / entry
    let s := if s.trailing_high = none ∨ s.trailing_high.getD 0 < current_price
      then { s with trailing_high := some current_price } else s
    if s.trailing_high ≠ none then
      let th := s.trailing_high.getD 0
      let trailing_stop_price := th * (1 - cfg.trailing_stop_pct)
      if current_price ≤ trailing_stop_price then
        (s, .sell, .trailing_stop_triggered th current_price)
      else (s, fr.1, fr.2)
    else if price_change_pct ≤ -cfg.stop_loss_pct then
      (s, .sell, .stop_loss_triggered price_change_pct)
    else if cfg.take_profit_pct ≤ price_change_pct then
      (s, .sell, .take_profit_triggered price_change_pct)
    else if s.entry_time ≠ none ∧ 3 < ⌊(now - s.entry_time.getD 0) / 86400⌋ then
      (s, .sell, .time_based_exit)
    else (s, fr.1, fr.2)
  else (s, fr.1, fr.2)

/-- The price-history bookkeeping at the top of `generate_signal`
(lines 374-376): append the current price, retain at most 200 entries. -/
def updatePriceHistory (s0 : StrategyState) (current_price : ℚ) : StrategyState :=
  let ph := s0.price_history ++ [current_price]
  { s0 with price_history := if 200 < ph.length then pyLast ph 200 else ph }

/-- The unconditional peak update of `generate_signal` (lines 387-388). -/
def updatePeak (s : StrategyState) (portfolio_value : ℚ) : StrategyState :=
  if s.peak_portfolio_value < portfolio_value then
    { s with peak_portfolio_value := portfolio_value }
  else s

/-- The position-management step of `generate_signal` (lines 413-419):
suppress a redundant buy while long and a sell with no long position. -/
def positionManagement (final_signal : Action) (last_signal : Option Action)
    (convReason : ConvictionReason) (score : ℚ) : Action × Reason :=
  if final_signal = .buy ∧ last_signal = some Action.buy then
    (.hold, .already_in_long_position)
  else if final_signal = .sell ∧ last_signal ≠ some Action.buy then
    (.hold, .no_long_position_to_sell)
  else (final_signal, .conviction convReason score)

/-- The final execution block of `generate_signal` (lines 452-496): perform
the buy (cash and size permitting), the sell (position permitting), or the
default hold, mutating the lifecycle state accordingly. -/
def executeDecision (sqrtFn : ℚ → ℚ) (cfg : Config) (s : StrategyState)
    (market : MarketSnapshot) (portfolio : Portfolio)
    (portfolio_value conviction_score : ℚ) (final_signal : Action)
    (reason : Reason) (now : ℚ) : StrategyState × Signal :=
  let current_price := market.current_price
  if final_signal = .buy then
    let position_size_pct := _calculate_optimal_position_size sqrtFn cfg
      s.win_loss_history market portfolio_value conviction_score
    let notional := portfolio.cash * position_size_pct
    if notional ≤ 0 then
      (s, { action := .hold, reason := .insufficient_cash })
    else
      let size := notional / current_price
      if size ≤ 0 then
        (s, { action := .hold, reason := .invalid_size })
      else
        ({ s with
            last_signal := some Action.buy
            entry_price := some current_price
            entry_time := some now
            trailing_high := some current_price
            trailing_low := some current_price
            last_trade_time := some now
            trade_count := s.trade_count + 1 },
          { action := .buy, size := some size, reason := reason })
  else if final_signal = .sell then
    if portfolio.quantity ≤ 0 then
      (s, { action := .hold, reason := .no_position_to_sell })
    else
      ({ s with
          last_signal := if reason.isStopOrTrailing then some Action.sell else none
          entry_price := none
          entry_time := none
          trailing_high := none
          trailing_low := none
          last_trade_time := some now
          trade_count := s.trade_count + 1 },
        { action := .sell, size := some portfolio.quantity, reason := reason })
  else (s, { action := .hold, reason := reason })

/-- `generate_signal(market, portfolio)`.  `now` is the value of
`datetime.now(timezone.utc)` read at the top of the call, made an explicit
argument so that the dependence on the wall clock is visible.  The result is
the updated `self` state paired with the emitted `Signal`. -/
def generate_signal (sqrtFn : ℚ → ℚ) (cfg : Config) (s0 : StrategyState)
    (market : MarketSnapshot) (portfolio : Portfolio) (now : ℚ) :
    StrategyState × Signal :=
  let s := updatePriceHistory s0 market.current_price
  if market.prices.length < max cfg.rsi_period (max cfg.bb_period cfg.macd_slow) then
    (s, { action := .hold, reason := .insufficient_price_data })
  else
    let current_price := market.current_price
    let portfolio_value := portfolio.cash + portfolio.quantity * current_price
    let s := updatePeak s portfolio_value
    let limits := _check_trade_limits cfg s now
    if ¬ limits.1 then
      (s, { action := .hold, reason := .trade_limit limits.2 })
    else
      let dd := _check_drawdown_limits cfg s portfolio_value
      let s := dd.2
      if ¬ dd.1 then
        (s, { action := .hold, reason := .drawdown_limit_exceeded })
      else
        let conv := _high_conviction_signal sqrtFn cfg market
        let conviction_score := conv.1
        if |conviction_score| < cfg.conviction_threshold then
          (s, { action := .hold, reason := .low_conviction conviction_score })
        else
          let fr := positionManagement (if 0 < conviction_score then .buy else .sell)
            s.last_signal conv.2 conviction_score
          let sfr := riskOverrides cfg s current_price now fr
          executeDecision sqrtFn cfg sfr.1 market portfolio portfolio_value
            conviction_score sfr.2.1 sfr.2.2 now

/-- The flat key-value snapshot produced by `get_state` / consumed by
`set_state` (every exported field; `_price_history` is not persisted). -/
structure PersistedState where
  last_signal : Option Action
  entry_price : Option ℚ
  entry_time : Option ℚ
  trailing_high : Option ℚ
  trailing_low : Option ℚ
  consecutive_losses : ℕ
  peak_portfolio_value : ℚ
  trade_count : ℕ
  last_trade_time : Option ℚ
  win_loss_history : List Bool
  recent_performance_score : ℚ
  deriving DecidableEq, Repr

/-- `_utc_iso(dt)` (seconds-precision ISO export) composed with
`datetime.fromisoformat` on import: the net effect on a timestamp is
truncation of its sub-second part. -/
def truncToSecond (t : ℚ) : ℚ := (⌊t⌋ : ℤ)

/-- `get_state()`: timestamps exported at seconds precision, win/loss history
truncated to the last 50 entries. -/
def get_state (s : StrategyState) : PersistedState where
  last_signal := s.last_signal
  entry_price := s.entry_price
  entry_time := s.entry_time.map truncToSecond
  trailing_high := s.trailing_high
  trailing_low := s.trailing_low
  consecutive_losses := s.consecutive_losses
  peak_portfolio_value := s.peak_portfolio_value
  trade_count := s.trade_count
  last_trade_time := s.last_trade_time.map truncToSecond
  win_loss_history :=
    if 50 < s.win_loss_history.length then pyLast s.win_loss_history 50
    else s.win_loss_history
  recent_performance_score := s.recent_performance_score

/-- `set_state(state)` called on a freshly constructed instance (so the
fields `set_state` leaves untouched keep their `__init__` values; in
particular `_price_history` starts empty). -/
def set_state (ps : PersistedState) : StrategyState where
  last_signal := ps.last_signal
  entry_price := ps.entry_price
  entry_time := ps.entry_time
  trailing_high := ps.trailing_high
  trailing_low := ps.trailing_low
  consecutive_losses := ps.consecutive_losses
  peak_portfolio_value := ps.peak_portfolio_value
  price_history := []
  win_loss_history := ps.win_loss_history
  trade_count := ps.trade_count
  last_trade_time := ps.last_trade_time
  recent_performance_score := ps.recent_performance_score

/-- Export on one instance followed by import on a fresh instance. -/
def roundTrip (s : StrategyState) : StrategyState :=
  set_state (get_state s)

/-- A per-call input triple: market snapshot, portfolio snapshot, wall-clock
reading. -/
abbrev CallInput := MarketSnapshot × Portfolio × ℚ

/-- The state after a sequence of `generate_signal` calls. -/
def runCalls (sqrtFn : ℚ → ℚ) (cfg : Config) (s : StrategyState) :
    List CallInput → StrategyState
  | [] => s
  | c :: cs => runCalls sqrtFn cfg (generate_signal sqrtFn cfg s c.1 c.2.1 c.2.2).1 cs

/-- Reason recogniser: stop-loss template (`STOP_LOSS_TRIGGERED`). -/
def Reason.isStopLossExit : Reason → Bool
  | .stop_loss_triggered _ => true
  | _ => false

/-- Reason recogniser: take-profit template (`TAKE_PROFIT_TRIGGERED`). -/
def Reason.isTakeProfitExit : Reason → Bool
  | .take_profit_triggered _ => true
  | _ => false

/-- Reason recogniser: time-based-exit template (`TIME_BASED_EXIT`). -/
def Reason.isTimeBasedExit : Reason → Bool
  | .time_based_exit => true
  | _ => false

/-- Reason recogniser: trailing-stop template (`TRAILING_STOP_TRIGGERED`). -/
def Reason.isTrailingStopExit : Reason → Bool
  | .trailing_stop_triggered _ _ => true
  | _ => false

/-!
Concrete inputs used by the counterexample and witness theorems below.
The indicator windows are shrunk through the configuration (every claim
quantifies over the configuration) so that the concrete runs evaluate by
kernel reduction; the conviction threshold is lowered because with the degenerate MACD signal
line the score can never reach the default `0.9` (RSI contributes at most
`0.4`, Bollinger at most `0.3`, MACD exactly `0`).
-/

/-- Small-window configuration: every indicator window shrunk to 2 and the
conviction threshold lowered to `1/200`; all other knobs keep the defaults.
With two-price histories the RSI (needs 3 prices) and MACD (needs 4) blocks
are skipped and conviction comes from the Bollinger block alone, whose
maximal contribution is `0.3` — with the degenerate MACD signal line the
score could never reach the default threshold `0.9` anyway. -/
def cfgS : Config :=
  { defaultConfig with
      conviction_threshold := 1/200
      rsi_period := 2
      bb_period := 2
      macd_fast := 2
      macd_slow := 2
      macd_signal := 2 }

/-- Square root used by the concrete runs.  On the two-price patterns below
the only Bollinger variances that occur are `4`, `10000` and `0`, whose
exact roots this function returns (so it agrees with the library `sqrt` at
every point where the runs evaluate it). -/
def sqrtS : ℚ → ℚ := fun q => if q = 4 then 2 else if q = 10000 then 100 else 0

/-- Oversold market: prices `[12, 8]` (mean 10, variance 4, Bollinger bands
`[6, 14]`), current price 5 below the lower band. -/
def m1 : MarketSnapshot := { current_price := 5, prices := [12, 8] }

/-- Starting portfolio: 10000 cash, no position. -/
def p1 : Portfolio := { cash := 10000, quantity := 0 }

/-- The state after the buy that `generate_signal sqrtS cfgS initialState m1
p1 (2001/2)` executes (the equality is proved in the theorems that use it).
The call time `2001/2 = 1000.5` carries a half-second fraction, as any real
`datetime.now()` reading would. -/
def s1Buy : StrategyState where
  last_signal := some Action.buy
  entry_price := some 5
  entry_time := some (2001/2)
  trailing_high := some 5
  trailing_low := some 5
  consecutive_losses := 0
  peak_portfolio_value := 10000
  price_history := [5]
  win_loss_history := []
  trade_count := 1
  last_trade_time := some (2001/2)
  recent_performance_score := 1

/-- The portfolio after that buy (300 units bought at 5). -/
def pAfter : Portfolio := { cash := 8500, quantity := 300 }

/-- Oversold market whose current price `4.75` sits exactly at the trailing
stop `5 × 0.95` of `s1Buy`. -/
def m2 : MarketSnapshot := { current_price := 19/4, prices := [12, 8] }

/-- A call time a quarter second short of the 6-hour cooldown measured from
`s1Buy.last_trade_time = 1000.5` (and a quarter second past it measured from
the truncated export `1000`). -/
def now2 : ℚ := 2001/2 + 21600 - 1/4

/-- Oversold market around 46000 (variance 10000, bands `[45800, 46200]`):
a buy here enters at the current price 45000. -/
def mA : MarketSnapshot := { current_price := 45000, prices := [46100, 45900] }

/-- The state after the buy that `generate_signal sqrtS cfgS initialState mA
p1 0` executes: a long position entered at 45000. -/
def sABuy : StrategyState where
  last_signal := some Action.buy
  entry_price := some 45000
  entry_time := some 0
  trailing_high := some 45000
  trailing_low := some 45000
  consecutive_losses := 0
  peak_portfolio_value := 10000
  price_history := [45000]
  win_loss_history := []
  trade_count := 1
  last_trade_time := some 0
  recent_performance_score := 1

/-- Oversold market with current price 46350 (+3 percent over 45000). -/
def mB3 : MarketSnapshot := { current_price := 46350, prices := [47450, 47250] }

/-- Oversold market with current price 51750 (+15 percent over 45000). -/
def mB15 : MarketSnapshot := { current_price := 51750, prices := [52850, 52650] }

/-- A portfolio holding a position, used for the post-entry calls. -/
def pB : Portfolio := { cash := 1000, quantity := 2/10 }

/-- A state whose trade count has reached the default `max_trades = 30`. -/
def sMax : StrategyState := { initialState with trade_count := 30 }

/-- A state carrying only a last-trade timestamp. -/
def sT : StrategyState := { initialState with last_trade_time := some 0 }

/-- A flat market: two equal prices. -/
def mFlat : MarketSnapshot := { current_price := 100, prices := [100, 100] }

/-- A configuration whose `max_position_pct` lies below the hard 5 percent
floor of the sizer. -/
def cfgSmall : Config := { defaultConfig with max_position_pct := 1/100 }

/-! ### Supporting lemmas -/

theorem mem_pySliceFrom {α} {l : List α} {i : ℤ} {x : α}
    (h : x ∈ pySliceFrom l i) : x ∈ l := by
  unfold pySliceFrom at h
  exact List.mem_of_mem_drop h

theorem pyLast_eq_drop {α} (l : List α) {n : ℕ} (hn : 0 < n) :
    pyLast l n = l.drop (l.length - n) := by
  unfold pyLast pySliceFrom
  have h1 : -(n : ℤ) < 0 := by exact_mod_cast Int.neg_neg_of_pos (by exact_mod_cast hn)
  rw [if_pos h1]
  congr 1
  omega

theorem pyLast_length {α} (l : List α) {n : ℕ} (hn : 0 < n) (hle : n ≤ l.length) :
    (pyLast l n).length = n := by
  rw [pyLast_eq_drop l hn, List.length_drop]
  omega

@[simp] theorem buy_eq_sell_false : (Action.buy = Action.sell) = False := by simp

@[simp] theorem sell_eq_buy_false : (Action.sell = Action.buy) = False := by simp

@[simp] theorem hold_eq_buy_false : (Action.hold = Action.buy) = False := by simp

@[simp] theorem hold_eq_sell_false : (Action.hold = Action.sell) = False := by simp

@[simp] theorem someQ_eq_none_false (x : ℚ) : ((some x : Option ℚ) = none) = False := by
  simp

@[simp] theorem noneQ_eq_some_false (x : ℚ) : ((none : Option ℚ) = some x) = False := by
  simp

@[simp] theorem someA_eq_none_false (a : Action) :
    ((some a : Option Action) = none) = False := by simp

@[simp] theorem noneA_eq_some_false (a : Action) :
    ((none : Option Action) = some a) = False := by simp

/-- The EMA recurrence leaves a constant stream at that constant. -/
theorem foldl_ema_const (k c : ℚ) :
    ∀ (l : List ℚ), (∀ x ∈ l, x = c) →
      l.foldl (fun ema price => price * k + ema * (1 - k)) c = c := by
  intro l
  induction l with
  | nil => intro _; rfl
  | cons a t ih =>
    intro h
    have ha : a = c := h a (List.mem_cons_self a t)
    have hstep : a * k + c * (1 - k) = c := by rw [ha]; ring
    simpa [List.foldl, hstep] using ih (fun x hx => h x (List.mem_cons_of_mem a hx))

/-- The inner `_calculate_ema` maps a list of `n` copies of `c` to `c`. -/
theorem ema_replicate (c : ℚ) {n : ℕ} (hn : 0 < n) :
    _calculate_ema (List.replicate n c) n = some c := by
  unfold _calculate_ema
  rw [if_neg (by simp)]
  have hseed : (pySliceFrom (List.replicate n c) (-(n : ℤ))).headD 0 = c := by
    unfold pySliceFrom
    rw [if_pos (by omega), List.length_replicate]
    have : ((n : ℤ) + -(n : ℤ)).toNat = 0 := by omega
    rw [this, List.drop_zero]
    cases n with
    | zero => omega
    | succ m => simp [List.replicate_succ]
  have hrest : ∀ x ∈ pySliceFrom (List.replicate n c) (-(n : ℤ) + 1), x = c :=
    fun x hx => List.eq_of_mem_replicate (mem_pySliceFrom hx)
  rw [hseed]
  exact congrArg some (foldl_ema_const _ c _ hrest)

theorem riskOverrides_reason (cfg : Config) (s : StrategyState)
    (current_price now : ℚ) (fr : Action × Reason) :
    (riskOverrides cfg s current_price now fr).2.2 = fr.2 ∨
    (riskOverrides cfg s current_price now fr).2.2.isTrailingStopExit = true := by
  simp only [riskOverrides]
  repeat' split
  all_goals simp_all [Reason.isTrailingStopExit]

theorem positionManagement_no_exit (a : Action) (ls : Option Action)
    (cr : ConvictionReason) (sc : ℚ) :
    (positionManagement a ls cr sc).2.isStopLossExit = false ∧
    (positionManagement a ls cr sc).2.isTakeProfitExit = false ∧
    (positionManagement a ls cr sc).2.isTimeBasedExit = false := by
  simp only [positionManagement]
  split_ifs <;> exact ⟨rfl, rfl, rfl⟩

theorem riskOverrides_no_exit (cfg : Config) (s : StrategyState)
    (current_price now : ℚ) (fr : Action × Reason)
    (h : fr.2.isStopLossExit = false ∧ fr.2.isTakeProfitExit = false ∧
      fr.2.isTimeBasedExit = false) :
    (riskOverrides cfg s current_price now fr).2.2.isStopLossExit = false ∧
    (riskOverrides cfg s current_price now fr).2.2.isTakeProfitExit = false ∧
    (riskOverrides cfg s current_price now fr).2.2.isTimeBasedExit = false := by
  obtain hr | hr := riskOverrides_reason cfg s current_price now fr
  · rw [hr]; exact h
  · cases hc : (riskOverrides cfg s current_price now fr).2.2 <;>
      simp_all [Reason.isTrailingStopExit, Reason.isStopLossExit,
        Reason.isTakeProfitExit, Reason.isTimeBasedExit]

theorem executeDecision_no_exit (sqrtFn : ℚ → ℚ) (cfg : Config) (s : StrategyState)
    (market : MarketSnapshot) (portfolio : Portfolio)
    (portfolio_value conviction_score : ℚ) (final_signal : Action)
    (reason : Reason) (now : ℚ)
    (h : reason.isStopLossExit = false ∧ reason.isTakeProfitExit = false ∧
      reason.isTimeBasedExit = false) :
    (executeDecision sqrtFn cfg s market portfolio portfolio_value conviction_score
        final_signal reason now).2.reason.isStopLossExit = false ∧
    (executeDecision sqrtFn cfg s market portfolio portfolio_value conviction_score
        final_signal reason now).2.reason.isTakeProfitExit = false ∧
    (executeDecision sqrtFn cfg s market portfolio portfolio_value conviction_score
        final_signal reason now).2.reason.isTimeBasedExit = false := by
  simp only [executeDecision]
  split_ifs <;> first | exact ⟨rfl, rfl, rfl⟩ | exact h

theorem updatePeak_fields (s : StrategyState) (pv : ℚ) :
    (updatePeak s pv).trade_count = s.trade_count ∧
    (updatePeak s pv).last_signal = s.last_signal ∧
    (updatePeak s pv).entry_price = s.entry_price ∧
    (updatePeak s pv).entry_time = s.entry_time ∧
    (updatePeak s pv).trailing_high = s.trailing_high ∧
    (updatePeak s pv).last_trade_time = s.last_trade_time ∧
    (updatePeak s pv).win_loss_history = s.win_loss_history := by
  simp only [updatePeak]
  split_ifs <;> exact ⟨rfl, rfl, rfl, rfl, rfl, rfl, rfl⟩

theorem ddCheck_fields (cfg : Config) (s : StrategyState) (pv : ℚ) :
    (_check_drawdown_limits cfg s pv).2.trade_count = s.trade_count ∧
    (_check_drawdown_limits cfg s pv).2.last_signal = s.last_signal ∧
    (_check_drawdown_limits cfg s pv).2.entry_price = s.entry_price ∧
    (_check_drawdown_limits cfg s pv).2.entry_time = s.entry_time ∧
    (_check_drawdown_limits cfg s pv).2.trailing_high = s.trailing_high ∧
    (_check_drawdown_limits cfg s pv).2.last_trade_time = s.last_trade_time ∧
    (_check_drawdown_limits cfg s pv).2.win_loss_history = s.win_loss_history := by
  simp only [_check_drawdown_limits]
  split_ifs <;> exact ⟨rfl, rfl, rfl, rfl, rfl, rfl, rfl⟩

theorem riskOverrides_state_fields (cfg : Config) (s : StrategyState)
    (current_price now : ℚ) (fr : Action × Reason) :
    (riskOverrides cfg s current_price now fr).1.trade_count = s.trade_count ∧
    (riskOverrides cfg s current_price now fr).1.last_signal = s.last_signal ∧
    (riskOverrides cfg s current_price now fr).1.entry_price = s.entry_price ∧
    (riskOverrides cfg s current_price now fr).1.entry_time = s.entry_time ∧
    (riskOverrides cfg s current_price now fr).1.last_trade_time = s.last_trade_time ∧
    (riskOverrides cfg s current_price now fr).1.win_loss_history = s.win_loss_history := by
  simp only [riskOverrides]
  repeat' split
  all_goals exact ⟨rfl, rfl, rfl, rfl, rfl, rfl⟩

theorem executeDecision_trade_count (sqrtFn : ℚ → ℚ) (cfg : Config)
    (s : StrategyState) (market : MarketSnapshot) (portfolio : Portfolio)
    (portfolio_value conviction_score : ℚ) (final_signal : Action)
    (reason : Reason) (now : ℚ) :
    (executeDecision sqrtFn cfg s market portfolio portfolio_value conviction_score
        final_signal reason now).1.trade_count = s.trade_count ∨
    (executeDecision sqrtFn cfg s market portfolio portfolio_value conviction_score
        final_signal reason now).1.trade_count = s.trade_count + 1 := by
  simp only [executeDecision]
  split_ifs <;> first | exact Or.inl rfl | exact Or.inr rfl

theorem tradeLimits_true_lt (cfg : Config) (s : StrategyState) (now : ℚ)
    (h : (_check_trade_limits cfg s now).1 = true) :
    s.trade_count < cfg.max_trades := by
  by_cases hc : cfg.max_trades ≤ s.trade_count
  · rw [_check_trade_limits, if_pos hc] at h
    exact absurd h (by simp)
  · omega

theorem tradeLimits_max (cfg : Config) (s : StrategyState) (now : ℚ)
    (h : cfg.max_trades ≤ s.trade_count) :
    _check_trade_limits cfg s now = (false, .max_trades_reached) := by
  rw [_check_trade_limits, if_pos h]

/-- Each call changes `trade_count` by at most one, and increments it only
when the `max_trades` guard had passed. -/
theorem generate_signal_trade_count_step (sqrtFn : ℚ → ℚ) (cfg : Config)
    (s : StrategyState) (market : MarketSnapshot) (portfolio : Portfolio) (now : ℚ) :
    (generate_signal sqrtFn cfg s market portfolio now).1.trade_count = s.trade_count ∨
    ((generate_signal sqrtFn cfg s market portfolio now).1.trade_count = s.trade_count + 1 ∧
      s.trade_count < cfg.max_trades) := by
  simp only [generate_signal]
  split_ifs with h1 h2 h3 h4
  all_goals
    first
      | exact Or.inl rfl
      | exact Or.inl ((updatePeak_fields _ _).1)
      | exact Or.inl (((ddCheck_fields _ _ _).1).trans (updatePeak_fields _ _).1)
      | (have hlt : s.trade_count < cfg.max_trades := by
          have := tradeLimits_true_lt cfg _ now h2
          rwa [(updatePeak_fields _ _).1] at this
         obtain hE | hE := executeDecision_trade_count sqrtFn cfg _ market portfolio _ _ _ _ now
         · left
           rw [hE, (riskOverrides_state_fields _ _ _ _ _).1, (ddCheck_fields _ _ _).1,
             (updatePeak_fields _ _).1]
           rfl
         · right
           refine ⟨?_, hlt⟩
           rw [hE, (riskOverrides_state_fields _ _ _ _ _).1, (ddCheck_fields _ _ _).1,
             (updatePeak_fields _ _).1]
           rfl)

/-! ### Claim theorems -/

/-- C1: while a long position is open, `generate_signal` reassigns (or keeps)
a non-`None` trailing high before the exit checks, so the stop-loss,
take-profit and time-based-exit `elif` branches are dead: on EVERY input
(state reachable or not), the decision's reason is never the stop-loss,
take-profit or time-based-exit template; the only exit override that can
fire is the trailing stop. -/
theorem claim_C1_exit_elifs_unreachable (sqrtFn : ℚ → ℚ) (cfg : Config)
    (s : StrategyState) (market : MarketSnapshot) (portfolio : Portfolio) (now : ℚ) :
    (generate_signal sqrtFn cfg s market portfolio now).2.reason.isStopLossExit = false ∧
    (generate_signal sqrtFn cfg s market portfolio now).2.reason.isTakeProfitExit = false ∧
    (generate_signal sqrtFn cfg s market portfolio now).2.reason.isTimeBasedExit = false := by
  simp only [generate_signal]
  split_ifs <;>
    first
      | exact ⟨rfl, rfl, rfl⟩
      | exact executeDecision_no_exit _ _ _ _ _ _ _ _ _ _
          (riskOverrides_no_exit _ _ _ _ _ (positionManagement_no_exit _ _ _ _))



/-- C3: for every price list accepted by `_calculate_macd`, the returned
signal line equals the MACD line exactly (the EMA of `signal_period` copies
of one value is that value), so the returned histogram is exactly 0; and
consequently the MACD block of `_high_conviction_signal` never changes the
conviction score or the reason list. -/
theorem claim_C3_macd_signal_degenerate :
    (∀ (prices : List ℚ) (fast_period slow_period signal_period : ℕ),
        0 < signal_period →
        ∀ m s h,
          _calculate_macd prices fast_period slow_period signal_period = some (m, s, h) →
          s = m ∧ h = 0) ∧
    (∀ (cfg : Config) (market : MarketSnapshot) (acc : ℚ × List ConvReason),
        0 < cfg.macd_signal → macdStage cfg market acc = acc) := by
  have key : ∀ (prices : List ℚ) (fast_period slow_period signal_period : ℕ),
      0 < signal_period →
      ∀ m s h,
        _calculate_macd prices fast_period slow_period signal_period = some (m, s, h) →
        s = m ∧ h = 0 := by
    intro prices f sl sg hsg m s h hm
    simp only [_calculate_macd] at hm
    split at hm
    · simp at hm
    · split at hm
      · rename_i fast_ema slow_ema ha hb
        rw [ema_replicate (fast_ema - slow_ema) hsg] at hm
        simp only [Option.some.injEq, Prod.mk.injEq] at hm
        obtain ⟨h1, h2, h3⟩ := hm
        constructor
        · rw [← h2, ← h1]
        · rw [← h3]; ring
      · simp at hm
  refine ⟨key, ?_⟩
  intro cfg market acc hsg
  unfold macdStage
  split
  · rfl
  · rename_i macd_line signal_line histogram hm
    obtain ⟨hs, hh⟩ := key market.prices cfg.macd_fast cfg.macd_slow cfg.macd_signal
      hsg macd_line signal_line histogram hm
    rw [if_neg (by simp [hh]), if_neg (by simp [hh])]

/-- Witness for C3 at a concrete accepted input: five constant prices with
MACD windows 2/3/2 give MACD line, signal line and histogram all `0`, and
the MACD block leaves an accumulator untouched on a four-price market. -/
theorem claim_C3_macd_signal_degenerate_witness :
    ((0 : ℚ) = 0 ∧ (0 : ℚ) = 0) ∧
    macdStage cfgS { current_price := 100, prices := List.replicate 4 100 } (1, []) = (1, []) :=
  ⟨claim_C3_macd_signal_degenerate.1 (List.replicate 5 100) 2 3 2 (by decide) 0 0 0
      (by with_unfolding_all decide),
    claim_C3_macd_signal_degenerate.2 cfgS
      { current_price := 100, prices := List.replicate 4 100 } (1, []) (by decide)⟩

/-- C9: whenever the price history is shorter than
`max(rsi_period, max(bb_period, macd_slow))`, the conviction scorer returns
score `0` with reason `insufficient_data`, and `generate_signal` returns a
hold decision citing insufficient price data (no exception is possible: the
embedding is a total function). -/
theorem claim_C9_insufficient_data (sqrtFn : ℚ → ℚ) (cfg : Config)
    (market : MarketSnapshot) (s : StrategyState) (portfolio : Portfolio) (now : ℚ)
    (h : market.prices.length < max cfg.rsi_period (max cfg.bb_period cfg.macd_slow)) :
    _high_conviction_signal sqrtFn cfg market = (0, .insufficient_data) ∧
    (generate_signal sqrtFn cfg s market portfolio now).2 =
      { action := .hold, size := none, reason := .insufficient_price_data } := by
  constructor
  · unfold _high_conviction_signal
    rw [if_pos h]
  · simp only [generate_signal]
    rw [if_pos h]

/-- Witness for C9: a one-price history is shorter than the two-price
requirement of `cfgS`, and both the scorer and the orchestrator degrade. -/
theorem claim_C9_insufficient_data_witness :
    _high_conviction_signal sqrtS cfgS { current_price := 1, prices := [1] } =
      (0, .insufficient_data) ∧
    (generate_signal sqrtS cfgS initialState { current_price := 1, prices := [1] }
        p1 0).2 =
      { action := .hold, size := none, reason := .insufficient_price_data } :=
  claim_C9_insufficient_data sqrtS cfgS _ initialState p1 0 (by decide)

/-- C7: on every price list long enough for RSI (length at least
`period + 1`), `_calculate_rsi` returns a value in `[0, 100]`; when the
average loss over the last `period` deltas is zero it returns exactly 100 if
the average gain is positive and exactly 50 otherwise; in particular it
returns 100 when all recent deltas are gains and 50 when all are zero. -/
theorem claim_C7_rsi_bounds (prices : List ℚ) (period : ℕ)
    (hper : 0 < period) (hlen : period + 1 ≤ prices.length) :
    ∃ r, _calculate_rsi prices period = some r ∧ 0 ≤ r ∧ r ≤ 100 ∧
      (rsiAvgLoss prices period = 0 →
        r = if 0 < rsiAvgGain prices period then 100 else 50) ∧
      ((∀ d ∈ pyLast (rsiDeltas prices) period, 0 < d) → r = 100) ∧
      ((∀ d ∈ pyLast (rsiDeltas prices) period, d = 0) → r = 50) := by
  have hdlen : period ≤ (rsiDeltas prices).length := by
    unfold rsiDeltas
    rw [List.length_zipWith, List.length_tail]
    omega
  have hwlen : (pyLast (rsiDeltas prices) period).length = period :=
    pyLast_length _ hper hdlen
  have hg0 : 0 ≤ rsiAvgGain prices period := by
    unfold rsiAvgGain
    refine div_nonneg (List.sum_nonneg ?_) (by positivity)
    unfold rsiGains
    intro x hx
    obtain ⟨d, _, rfl⟩ := List.mem_map.mp hx
    split <;> [linarith; rfl]
  have hl0 : 0 ≤ rsiAvgLoss prices period := by
    unfold rsiAvgLoss
    refine div_nonneg (List.sum_nonneg ?_) (by positivity)
    unfold rsiLosses
    intro x hx
    obtain ⟨d, _, rfl⟩ := List.mem_map.mp hx
    split <;> [linarith; rfl]
  have hallpos : (∀ d ∈ pyLast (rsiDeltas prices) period, 0 < d) →
      rsiAvgLoss prices period = 0 ∧ 0 < rsiAvgGain prices period := by
    intro hp
    constructor
    · unfold rsiAvgLoss rsiLosses
      rw [List.sum_eq_zero, zero_div]
      intro x hx
      obtain ⟨d, hd, rfl⟩ := List.mem_map.mp hx
      rw [if_neg (by have := hp d hd; intro hc; linarith)]
    · unfold rsiAvgGain rsiGains
      refine div_pos ?_ (by positivity)
      refine List.sum_pos _ ?_ (List.ne_nil_of_length_pos (by rw [List.length_map]; omega))
      intro x hx
      obtain ⟨d, hd, rfl⟩ := List.mem_map.mp hx
      rw [if_pos (hp d hd)]
      exact hp d hd
  have hallzero : (∀ d ∈ pyLast (rsiDeltas prices) period, d = 0) →
      rsiAvgLoss prices period = 0 ∧ rsiAvgGain prices period = 0 := by
    intro hp
    constructor
    · unfold rsiAvgLoss rsiLosses
      rw [List.sum_eq_zero, zero_div]
      intro x hx
      obtain ⟨d, hd, rfl⟩ := List.mem_map.mp hx
      simp [hp d hd]
    · unfold rsiAvgGain rsiGains
      rw [List.sum_eq_zero, zero_div]
      intro x hx
      obtain ⟨d, hd, rfl⟩ := List.mem_map.mp hx
      simp [hp d hd]
  by_cases hL : rsiAvgLoss prices period = 0
  · refine ⟨if 0 < rsiAvgGain prices period then 100 else 50, ?_, ?_, ?_, fun _ => rfl, ?_, ?_⟩
    · simp only [_calculate_rsi]
      rw [if_neg (by omega), if_pos hL]
    · split <;> norm_num
    · split <;> norm_num
    · intro hp
      rw [if_pos (hallpos hp).2]
    · intro hp
      rw [if_neg (by rw [(hallzero hp).2]; exact lt_irrefl 0)]
  · have hLpos : 0 < rsiAvgLoss prices period := lt_of_le_of_ne hl0 (Ne.symm hL)
    set rs := rsiAvgGain prices period / rsiAvgLoss prices period with hrs
    have hrs0 : 0 ≤ rs := div_nonneg hg0 hl0
    have h1rs : (0 : ℚ) < 1 + rs := by linarith
    have hdivpos : 0 < 100 / (1 + rs) := div_pos (by norm_num) h1rs
    have hdivle : 100 / (1 + rs) ≤ 100 := div_le_self (by norm_num) (by linarith)
    refine ⟨100 - 100 / (1 + rs), ?_, by linarith, by linarith,
      fun hc => absurd hc hL, ?_, ?_⟩
    · simp only [_calculate_rsi]
      rw [if_neg (by omega), if_neg hL]
    · intro hp
      exact absurd (hallpos hp).1 hL
    · intro hp
      exact absurd (hallzero hp).1 hL

/-- Witness for C7: prices `[1, 2, 4]` with period 2 — both deltas are
gains, so the hypotheses hold and RSI evaluates to exactly 100. -/
theorem claim_C7_rsi_bounds_witness :
    (0 < 2 ∧ 2 + 1 ≤ ([1, 2, 4] : List ℚ).length) ∧
    ∃ r, _calculate_rsi [1, 2, 4] 2 = some r ∧ 0 ≤ r ∧ r ≤ 100 ∧
      (rsiAvgLoss [1, 2, 4] 2 = 0 →
        r = if 0 < rsiAvgGain [1, 2, 4] 2 then 100 else 50) ∧
      ((∀ d ∈ pyLast (rsiDeltas [1, 2, 4]) 2, 0 < d) → r = 100) ∧
      ((∀ d ∈ pyLast (rsiDeltas [1, 2, 4]) 2, d = 0) → r = 50) :=
  ⟨⟨by decide, by decide⟩, claim_C7_rsi_bounds [1, 2, 4] 2 (by decide) (by decide)⟩


/-- Counterexample to C8: with `max_position_pct = 1/100` (below the hard
5-percent floor) the sizer returns `1/20`, which is NOT within
`[0.05, max_position_pct]` — that interval is empty.  The clamp
`max(0.05, min(max_position_pct, x))` prefers the floor. -/
theorem claim_C8_counterexample :
    _calculate_optimal_position_size sqrtS cfgSmall []
        { current_price := 1, prices := [] } 0 0 = 1/20 ∧
    cfgSmall.max_position_pct < 1/20 := by
  constructor
  · with_unfolding_all decide
  · with_unfolding_all decide

/-- C8 (amended): provided the configured `max_position_pct` is at least the
hard floor `0.05`, the sizer's result lies in `[0.05, max_position_pct]` for
every combination of conviction score, win/loss history, price history and
configuration, and it equals the base fraction times the conviction,
performance and volatility multipliers, clamped to that interval. -/
theorem claim_C8_amended_size_bounds (sqrtFn : ℚ → ℚ) (cfg : Config)
    (win_loss_history : List Bool) (market : MarketSnapshot)
    (portfolio_value conviction_score : ℚ)
    (hmax : 1/20 ≤ cfg.max_position_pct) :
    5/100 ≤ _calculate_optimal_position_size sqrtFn cfg win_loss_history market
        portfolio_value conviction_score ∧
    _calculate_optimal_position_size sqrtFn cfg win_loss_history market
        portfolio_value conviction_score ≤ cfg.max_position_pct ∧
    _calculate_optimal_position_size sqrtFn cfg win_loss_history market
        portfolio_value conviction_score =
      max (5/100) (min cfg.max_position_pct
        (cfg.base_position_pct * positionFactor cfg conviction_score *
          performanceFactor win_loss_history * volFactor sqrtFn market.prices)) := by
  refine ⟨le_max_left _ _, ?_, rfl⟩
  refine max_le ?_ (min_le_left _ _)
  calc (5:ℚ)/100 = 1/20 := by norm_num
    _ ≤ cfg.max_position_pct := hmax

/-- Witness for C8 (amended) at the default configuration
(`max_position_pct = 0.4`), empty history and empty price list. -/
theorem claim_C8_amended_size_bounds_witness :
    (1/20 ≤ defaultConfig.max_position_pct) ∧
    (5/100 ≤ _calculate_optimal_position_size sqrtS defaultConfig []
        { current_price := 1, prices := [] } 0 0 ∧
      _calculate_optimal_position_size sqrtS defaultConfig []
        { current_price := 1, prices := [] } 0 0 ≤ defaultConfig.max_position_pct ∧
      _calculate_optimal_position_size sqrtS defaultConfig []
        { current_price := 1, prices := [] } 0 0 =
        max (5/100) (min defaultConfig.max_position_pct
          (defaultConfig.base_position_pct * positionFactor defaultConfig 0 *
            performanceFactor [] * volFactor sqrtS []))) :=
  ⟨by with_unfolding_all decide,
    claim_C8_amended_size_bounds sqrtS defaultConfig []
      { current_price := 1, prices := [] } 0 0 (by with_unfolding_all decide)⟩


/-- C2, evaluated at the spec's own inputs (windows shrunk through the
configuration, conviction threshold lowered): the first call buys and sets
`entry_price = 45000`; the follow-up call at `46350` (+3 percent) does not
produce a take-profit sell — but neither does the follow-up call at `51750`
(+15 percent): the trailing-high update leaves the take-profit `elif`
unreachable, so the code returns a hold (`already_in_long_position`) instead
of the sell with `TAKE_PROFIT_TRIGGERED` that the claim requires. -/
theorem claim_C2_take_profit_never_fires :
    ((generate_signal sqrtS cfgS initialState mA p1 0).1 = sABuy ∧
      (generate_signal sqrtS cfgS initialState mA p1 0).2.action = .buy) ∧
    (generate_signal sqrtS cfgS sABuy mB3 pB 25200).2 =
      { action := .hold, size := none, reason := .already_in_long_position } ∧
    (generate_signal sqrtS cfgS sABuy mB15 pB 25200).2 =
      { action := .hold, size := none, reason := .already_in_long_position } := by
  refine ⟨⟨?_, ?_⟩, ?_, ?_⟩ <;>
    norm_num [generate_signal, riskOverrides, updatePriceHistory, updatePeak,
      positionManagement, executeDecision, cfgS, sqrtS, mA, mB3, mB15, p1, pB, sABuy,
      initialState, defaultConfig, _check_trade_limits, _check_drawdown_limits,
      _high_conviction_signal,
      rsiStage, bbStage, macdStage, _calculate_rsi, _calculate_bollinger_bands,
      _calculate_macd, _calculate_ema, _calculate_sma, _calculate_volatility,
      _calculate_optimal_position_size, positionFactor, performanceFactor,
      volFactor, pstdev, rsiDeltas, rsiGains, rsiLosses, rsiAvgGain, rsiAvgLoss,
      pyLast, pySliceFrom, truthyQ, Reason.isStopOrTrailing,
      abs_of_nonneg, abs_of_nonpos]

/-- Counterexample to C4: with `trade_count` already at `max_trades`, a call
whose market snapshot has too short a price history returns Hold citing
"Insufficient price data" — the insufficient-data gate precedes the trade
limit gate — so not every subsequent call reports `max_trades_reached`. -/
theorem claim_C4_counterexample :
    sMax.trade_count = defaultConfig.max_trades ∧
    (generate_signal sqrtS defaultConfig sMax { current_price := 1, prices := [] }
        p1 0).2 =
      { action := .hold, size := none, reason := .insufficient_price_data } ∧
    Reason.insufficient_price_data ≠ Reason.trade_limit .max_trades_reached := by
  refine ⟨by decide, ?_, by decide⟩
  norm_num [generate_signal, updatePriceHistory, sMax, initialState, defaultConfig, p1]

/-- C4 (amended): starting from the initial state, `trade_count` never
exceeds `max_trades` across every sequence of calls; each call changes the
count by at most one and increments it only when the guard
`trade_count >= max_trades` had not fired; and once the count has reached
`max_trades` every subsequent call returns Hold and leaves the count
unchanged — with reason `max_trades_reached` whenever the price history is
long enough to pass the earlier insufficient-data gate (otherwise the hold
cites insufficient price data, per the counterexample). -/
theorem claim_C4_amended_trade_count_cap :
    (∀ (sqrtFn : ℚ → ℚ) (cfg : Config) (calls : List CallInput),
        (runCalls sqrtFn cfg initialState calls).trade_count ≤ cfg.max_trades) ∧
    (∀ (sqrtFn : ℚ → ℚ) (cfg : Config) (s : StrategyState) (market : MarketSnapshot)
        (portfolio : Portfolio) (now : ℚ),
      ((generate_signal sqrtFn cfg s market portfolio now).1.trade_count = s.trade_count ∨
        ((generate_signal sqrtFn cfg s market portfolio now).1.trade_count =
            s.trade_count + 1 ∧
          s.trade_count < cfg.max_trades)) ∧
      (cfg.max_trades ≤ s.trade_count →
        (generate_signal sqrtFn cfg s market portfolio now).1.trade_count = s.trade_count ∧
        (generate_signal sqrtFn cfg s market portfolio now).2.action = .hold ∧
        (¬ market.prices.length < max cfg.rsi_period (max cfg.bb_period cfg.macd_slow) →
          (generate_signal sqrtFn cfg s market portfolio now).2.reason =
            .trade_limit .max_trades_reached))) := by
  constructor
  · intro sqrtFn cfg calls
    suffices h : ∀ (calls : List CallInput) (s : StrategyState),
        s.trade_count ≤ cfg.max_trades →
        (runCalls sqrtFn cfg s calls).trade_count ≤ cfg.max_trades from
      h calls initialState (Nat.zero_le _)
    intro calls
    induction calls with
    | nil => intro s hs; exact hs
    | cons c cs ih =>
      intro s hs
      simp only [runCalls]
      apply ih
      obtain h | ⟨h1, h2⟩ :=
        generate_signal_trade_count_step sqrtFn cfg s c.1 c.2.1 c.2.2
      · omega
      · omega
  · intro sqrtFn cfg s market portfolio now
    refine ⟨generate_signal_trade_count_step sqrtFn cfg s market portfolio now, ?_⟩
    intro h
    simp only [generate_signal]
    split_ifs with h1 h2
    · exact ⟨rfl, rfl, fun hs => absurd h1 hs⟩
    all_goals
      first
        | (refine ⟨(updatePeak_fields _ _).1, rfl, fun _ => ?_⟩
           have hcount : cfg.max_trades ≤
               (updatePeak (updatePriceHistory s market.current_price)
                 (portfolio.cash + portfolio.quantity * market.current_price)).trade_count := by
             rw [(updatePeak_fields _ _).1]
             exact h
           rw [tradeLimits_max cfg _ now hcount])
        | (exfalso
           have hlt := tradeLimits_true_lt cfg _ now h2
           rw [(updatePeak_fields _ _).1] at hlt
           have hlt' : s.trade_count < cfg.max_trades := hlt
           omega)

/-- Witness for C4 (amended): the empty call sequence respects the cap, and
a state at the cap with a sufficiently long price history holds with the
`max_trades_reached` trade-limit reason. -/
theorem claim_C4_amended_trade_count_cap_witness :
    (runCalls sqrtS cfgS initialState []).trade_count ≤ cfgS.max_trades ∧
    ((generate_signal sqrtS cfgS sMax mFlat p1 0).1.trade_count = sMax.trade_count ∧
      (generate_signal sqrtS cfgS sMax mFlat p1 0).2.action = .hold ∧
      (generate_signal sqrtS cfgS sMax mFlat p1 0).2.reason =
        .trade_limit .max_trades_reached) :=
  ⟨claim_C4_amended_trade_count_cap.1 sqrtS cfgS [],
    ⟨((claim_C4_amended_trade_count_cap.2 sqrtS cfgS sMax mFlat p1 0).2 (by decide)).1,
      ((claim_C4_amended_trade_count_cap.2 sqrtS cfgS sMax mFlat p1 0).2 (by decide)).2.1,
      ((claim_C4_amended_trade_count_cap.2 sqrtS cfgS sMax mFlat p1 0).2
          (by decide)).2.2 (by decide)⟩⟩


theorem tradeLimits_now_indep (cfg : Config) (s : StrategyState)
    (h : s.last_trade_time = none) (n n' : ℚ) :
    _check_trade_limits cfg s n = _check_trade_limits cfg s n' := by
  simp only [_check_trade_limits, h]

/-- `riskOverrides` never reads the clock on a live path: the only use of
`now` sits in the unreachable time-based-exit branch. -/
theorem riskOverrides_now_indep (cfg : Config) (s : StrategyState)
    (current_price : ℚ) (fr : Action × Reason) (n n' : ℚ) :
    riskOverrides cfg s current_price n fr = riskOverrides cfg s current_price n' fr := by
  simp only [riskOverrides]
  repeat' split
  all_goals simp_all

theorem executeDecision_signal_now_indep (sqrtFn : ℚ → ℚ) (cfg : Config)
    (s : StrategyState) (market : MarketSnapshot) (portfolio : Portfolio)
    (portfolio_value conviction_score : ℚ) (final_signal : Action)
    (reason : Reason) (n n' : ℚ) :
    (executeDecision sqrtFn cfg s market portfolio portfolio_value conviction_score
        final_signal reason n).2 =
    (executeDecision sqrtFn cfg s market portfolio portfolio_value conviction_score
        final_signal reason n').2 := by
  simp only [executeDecision]
  split_ifs <;> rfl

/-- Counterexample to C5: with a last-trade timestamp set, two calls from
the same state with the same market and portfolio snapshots but different
wall-clock readings produce different decisions (cooldown hold versus
low-conviction hold), so a call is not a function of
(state, market, portfolio) alone. -/
theorem claim_C5_counterexample :
    (generate_signal sqrtS cfgS sT mFlat p1 3600).2 =
      { action := .hold, size := none, reason := .trade_limit (.min_time_not_met 1) } ∧
    (generate_signal sqrtS cfgS sT mFlat p1 36000).2 =
      { action := .hold, size := none, reason := .low_conviction 0 } ∧
    (generate_signal sqrtS cfgS sT mFlat p1 3600).2 ≠
      (generate_signal sqrtS cfgS sT mFlat p1 36000).2 := by
  have h1 : (generate_signal sqrtS cfgS sT mFlat p1 3600).2 =
      { action := .hold, size := none, reason := .trade_limit (.min_time_not_met 1) } := by
    norm_num [generate_signal, riskOverrides, updatePriceHistory, updatePeak,
      positionManagement, executeDecision, cfgS, sqrtS, sT, mFlat, p1, initialState,
      defaultConfig, _check_trade_limits, _check_drawdown_limits, _high_conviction_signal,
      rsiStage, bbStage, macdStage, _calculate_rsi, _calculate_bollinger_bands,
      _calculate_macd, _calculate_ema, _calculate_sma, _calculate_volatility,
      _calculate_optimal_position_size, positionFactor, performanceFactor,
      volFactor, pstdev, rsiDeltas, rsiGains, rsiLosses, rsiAvgGain, rsiAvgLoss,
      pyLast, pySliceFrom, truthyQ, Reason.isStopOrTrailing, abs_of_nonneg, abs_of_nonpos]
  have h2 : (generate_signal sqrtS cfgS sT mFlat p1 36000).2 =
      { action := .hold, size := none, reason := .low_conviction 0 } := by
    norm_num [generate_signal, riskOverrides, updatePriceHistory, updatePeak,
      positionManagement, executeDecision, cfgS, sqrtS, sT, mFlat, p1, initialState,
      defaultConfig, _check_trade_limits, _check_drawdown_limits, _high_conviction_signal,
      rsiStage, bbStage, macdStage, _calculate_rsi, _calculate_bollinger_bands,
      _calculate_macd, _calculate_ema, _calculate_sma, _calculate_volatility,
      _calculate_optimal_position_size, positionFactor, performanceFactor,
      volFactor, pstdev, rsiDeltas, rsiGains, rsiLosses, rsiAvgGain, rsiAvgLoss,
      pyLast, pySliceFrom, truthyQ, Reason.isStopOrTrailing, abs_of_nonneg, abs_of_nonpos]
  refine ⟨h1, h2, ?_⟩
  rw [h1, h2]
  decide

/-- C5 (amended): each invocation is a deterministic function of
(state, market snapshot, portfolio snapshot, wall-clock reading); the
decision reads the clock only through the trade-frequency gate, so when the
state carries no last-trade timestamp the decision is independent of the
clock (time stamped into the successor state on a trade still differs). -/
theorem claim_C5_amended_clock_dependence (sqrtFn : ℚ → ℚ) (cfg : Config)
    (s : StrategyState) (market : MarketSnapshot) (portfolio : Portfolio)
    (n n' : ℚ) (h : s.last_trade_time = none) :
    (generate_signal sqrtFn cfg s market portfolio n).2 =
    (generate_signal sqrtFn cfg s market portfolio n').2 := by
  have hs' : (updatePeak (updatePriceHistory s market.current_price)
      (portfolio.cash + portfolio.quantity * market.current_price)).last_trade_time =
      none := by
    rw [(updatePeak_fields _ _).2.2.2.2.2.1]
    exact h
  simp only [generate_signal]
  rw [tradeLimits_now_indep cfg _ hs' n n',
    riskOverrides_now_indep cfg _ market.current_price _ n n']
  split_ifs <;>
    first
      | rfl
      | exact executeDecision_signal_now_indep sqrtFn cfg _ market portfolio _ _ _ _ n n'

/-- Witness for C5 (amended): from the initial state (no last-trade
timestamp), calls at times 0 and 5 coincide. -/
theorem claim_C5_amended_clock_dependence_witness :
    (generate_signal sqrtS cfgS initialState mFlat p1 0).2 =
    (generate_signal sqrtS cfgS initialState mFlat p1 5).2 :=
  claim_C5_amended_clock_dependence sqrtS cfgS initialState mFlat p1 0 5 (by decide)


theorem executeDecision_action_ne_buy (sqrtFn : ℚ → ℚ) (cfg : Config)
    (s : StrategyState) (market : MarketSnapshot) (portfolio : Portfolio)
    (portfolio_value conviction_score : ℚ) (final_signal : Action)
    (reason : Reason) (now : ℚ) (h : final_signal ≠ .buy) :
    (executeDecision sqrtFn cfg s market portfolio portfolio_value conviction_score
        final_signal reason now).2.action ≠ .buy := by
  simp only [executeDecision]
  split_ifs <;> simp_all

theorem executeDecision_buy_facts (sqrtFn : ℚ → ℚ) (cfg : Config)
    (s : StrategyState) (market : MarketSnapshot) (portfolio : Portfolio)
    (portfolio_value conviction_score : ℚ) (final_signal : Action)
    (reason : Reason) (now : ℚ)
    (h : (executeDecision sqrtFn cfg s market portfolio portfolio_value conviction_score
        final_signal reason now).2.action = .buy) :
    (executeDecision sqrtFn cfg s market portfolio portfolio_value conviction_score
        final_signal reason now).1.last_signal = some Action.buy ∧
    (executeDecision sqrtFn cfg s market portfolio portfolio_value conviction_score
        final_signal reason now).1.last_trade_time = some now ∧
    (executeDecision sqrtFn cfg s market portfolio portfolio_value conviction_score
        final_signal reason now).1.trade_count = s.trade_count + 1 := by
  simp only [executeDecision] at h ⊢
  split_ifs at h ⊢ <;> simp_all

theorem positionManagement_action_ne_buy_of_long (a : Action)
    (cr : ConvictionReason) (sc : ℚ) :
    (positionManagement a (some Action.buy) cr sc).1 ≠ .buy := by
  simp only [positionManagement]
  split_ifs with hc1 hc2 <;> simp_all

theorem riskOverrides_action_cases (cfg : Config) (s : StrategyState)
    (current_price now : ℚ) (fr : Action × Reason) :
    (riskOverrides cfg s current_price now fr).2.1 = fr.1 ∨
    (riskOverrides cfg s current_price now fr).2.1 = .sell := by
  simp only [riskOverrides]
  repeat' split
  all_goals simp_all

/-- While a long position is recorded (`last_signal = "buy"`), a call can
never emit another buy: the candidate buy is suppressed and the overrides
can only force a sell. -/
theorem generate_signal_no_buy_while_long (sqrtFn : ℚ → ℚ) (cfg : Config)
    (s : StrategyState) (market : MarketSnapshot) (portfolio : Portfolio) (now : ℚ)
    (h : s.last_signal = some Action.buy) :
    (generate_signal sqrtFn cfg s market portfolio now).2.action ≠ .buy := by
  have hls : (_check_drawdown_limits cfg
      (updatePeak (updatePriceHistory s market.current_price)
        (portfolio.cash + portfolio.quantity * market.current_price))
      (portfolio.cash + portfolio.quantity * market.current_price)).2.last_signal =
      some Action.buy := by
    rw [(ddCheck_fields _ _ _).2.1, (updatePeak_fields _ _).2.1]
    exact h
  simp only [generate_signal]
  split_ifs <;> try simp
  all_goals
    apply executeDecision_action_ne_buy
    obtain hA | hA := riskOverrides_action_cases cfg _ market.current_price now _
    · rw [hA, hls]
      exact positionManagement_action_ne_buy_of_long _ _ _
    · rw [hA]
      simp

theorem positionManagement_ne_buy_of_ne (a : Action) (ls : Option Action)
    (cr : ConvictionReason) (sc : ℚ) (h : a ≠ .buy) :
    (positionManagement a ls cr sc).1 ≠ .buy := by
  simp only [positionManagement]
  split_ifs <;> simp_all

theorem sfr_ne_buy_of_candidate_ne (cfg : Config) (s : StrategyState)
    (current_price now : ℚ) (a : Action) (ls : Option Action)
    (cr : ConvictionReason) (sc : ℚ) (ha : a ≠ .buy) :
    (riskOverrides cfg s current_price now (positionManagement a ls cr sc)).2.1 ≠
      .buy := by
  obtain hA | hA := riskOverrides_action_cases cfg s current_price now
    (positionManagement a ls cr sc)
  · rw [hA]
    exact positionManagement_ne_buy_of_ne a ls cr sc ha
  · rw [hA]
    simp

set_option maxHeartbeats 1000000 in
theorem generate_signal_buy_facts (sqrtFn : ℚ → ℚ) (cfg : Config)
    (s0 : StrategyState) (market : MarketSnapshot) (portfolio : Portfolio) (now : ℚ)
    (h : (generate_signal sqrtFn cfg s0 market portfolio now).2.action = .buy) :
    (generate_signal sqrtFn cfg s0 market portfolio now).1.last_signal =
      some Action.buy ∧
    (generate_signal sqrtFn cfg s0 market portfolio now).1.last_trade_time = some now ∧
    (generate_signal sqrtFn cfg s0 market portfolio now).1.trade_count =
      s0.trade_count + 1 ∧
    ¬ market.prices.length < max cfg.rsi_period (max cfg.bb_period cfg.macd_slow) := by
  simp only [generate_signal] at h ⊢
  split_ifs at h ⊢ with h1 h2 h3 h4 h5
  all_goals try exact absurd h (by simp)
  all_goals try
    exact absurd h (executeDecision_action_ne_buy _ _ _ _ _ _ _ _ _ _
      (sfr_ne_buy_of_candidate_ne cfg _ market.current_price now Action.sell _ _ _
        (by simp)))
  obtain ⟨f1, f2, f3⟩ :=
    executeDecision_buy_facts sqrtFn cfg _ market portfolio _ _ _ _ now h
  refine ⟨f1, f2, ?_, h1⟩
  rw [f3, (riskOverrides_state_fields _ _ _ _ _).1, (ddCheck_fields _ _ _).1,
    (updatePeak_fields _ _).1]
  rfl


/-- Counterexample to C6: a buy (entering long at price 5, stamping
`last_trade_time`) followed by an immediate second call (same clock reading,
cooldown 6h not elapsed) returns Hold with the trade-frequency reason
`min_time_between_trades_not_met`, NOT `already_in_long_position`: the
cooldown gate fires before position management is reached. -/
theorem claim_C6_counterexample :
    ((generate_signal sqrtS cfgS initialState m1 p1 (2001/2)).2.action = .buy ∧
      (generate_signal sqrtS cfgS initialState m1 p1 (2001/2)).1 = s1Buy) ∧
    (generate_signal sqrtS cfgS s1Buy m1 pAfter (2001/2)).2 =
      { action := .hold, size := none, reason := .trade_limit (.min_time_not_met 0) } ∧
    Reason.trade_limit (.min_time_not_met 0) ≠ Reason.already_in_long_position := by
  refine ⟨⟨?_, ?_⟩, ?_, by decide⟩ <;>
    norm_num [generate_signal, riskOverrides, updatePriceHistory, updatePeak,
      positionManagement, executeDecision, cfgS, sqrtS, m1, p1, pAfter, s1Buy,
      initialState, defaultConfig, _check_trade_limits, _check_drawdown_limits,
      _high_conviction_signal, rsiStage, bbStage, macdStage, _calculate_rsi,
      _calculate_bollinger_bands, _calculate_macd, _calculate_ema, _calculate_sma,
      _calculate_volatility, _calculate_optimal_position_size, positionFactor,
      performanceFactor, volFactor, pstdev, rsiDeltas, rsiGains, rsiLosses,
      rsiAvgGain, rsiAvgLoss, pyLast, pySliceFrom, truthyQ, Reason.isStopOrTrailing,
      abs_of_nonneg, abs_of_nonpos]

/-- C6 (amended): no call made while a long position is recorded can emit a
duplicate buy; and after a call that buys, an immediate second call (same
clock reading, positive configured cooldown, trade capacity remaining)
returns Hold whose reason is the trade-frequency limit with zero elapsed
hours — `already_in_long_position` is not reachable while the cooldown gate
fires first. -/
theorem claim_C6_amended_cooldown_fires_first :
    (∀ (sqrtFn : ℚ → ℚ) (cfg : Config) (s : StrategyState) (market : MarketSnapshot)
        (portfolio : Portfolio) (now : ℚ), s.last_signal = some Action.buy →
      (generate_signal sqrtFn cfg s market portfolio now).2.action ≠ .buy) ∧
    (∀ (sqrtFn : ℚ → ℚ) (cfg : Config) (s0 : StrategyState) (market : MarketSnapshot)
        (p p2 : Portfolio) (now : ℚ),
      (generate_signal sqrtFn cfg s0 market p now).2.action = .buy →
      0 < cfg.min_time_between_trades →
      s0.trade_count + 1 < cfg.max_trades →
      (generate_signal sqrtFn cfg (generate_signal sqrtFn cfg s0 market p now).1
          market p2 now).2 =
        { action := .hold, size := none,
          reason := .trade_limit (.min_time_not_met 0) }) := by
  refine ⟨generate_signal_no_buy_while_long, ?_⟩
  intro sqrtFn cfg s0 market p p2 now hbuy hcool hcount
  obtain ⟨f1, f2, f3, f4⟩ := generate_signal_buy_facts sqrtFn cfg s0 market p now hbuy
  generalize hgen : (generate_signal sqrtFn cfg s0 market p now).1 = s1 at f1 f2 f3 ⊢
  have hcnt : (updatePeak (updatePriceHistory s1 market.current_price)
      (p2.cash + p2.quantity * market.current_price)).trade_count =
      s0.trade_count + 1 := by
    rw [(updatePeak_fields _ _).1]
    exact f3
  have hltt : (updatePeak (updatePriceHistory s1 market.current_price)
      (p2.cash + p2.quantity * market.current_price)).last_trade_time = some now := by
    rw [(updatePeak_fields _ _).2.2.2.2.2.1]
    exact f2
  have hlim : _check_trade_limits cfg
      (updatePeak (updatePriceHistory s1 market.current_price)
        (p2.cash + p2.quantity * market.current_price)) now =
      (false, .min_time_not_met 0) := by
    rw [_check_trade_limits, if_neg (by rw [hcnt]; omega), hltt]
    have hpos : now - now < cfg.min_time_between_trades * 3600 := by
      rw [sub_self]
      exact mul_pos hcool (by norm_num)
    show (if now - now < cfg.min_time_between_trades * 3600 then
        ((false : Bool), TradeLimitReason.min_time_not_met ((now - now) / 3600))
      else (true, TradeLimitReason.ok)) =
      ((false : Bool), TradeLimitReason.min_time_not_met 0)
    rw [if_pos hpos, sub_self, zero_div]
  simp only [generate_signal]
  rw [if_neg f4, hlim]
  simp


/-- Witness for the C6 amended theorem at the concrete scenario: the in-long
state never re-buys, and the immediate follow-up call after the concrete buy
returns the cooldown Hold. -/
theorem claim_C6_amended_cooldown_fires_first_witness :
    (generate_signal sqrtS cfgS s1Buy m1 pAfter (2001/2)).2.action ≠ .buy ∧
    (generate_signal sqrtS cfgS
        (generate_signal sqrtS cfgS initialState m1 p1 (2001/2)).1
        m1 pAfter (2001/2)).2 =
      { action := .hold, size := none,
        reason := .trade_limit (.min_time_not_met 0) } :=
  ⟨claim_C6_amended_cooldown_fires_first.1 sqrtS cfgS s1Buy m1 pAfter (2001/2) rfl,
    claim_C6_amended_cooldown_fires_first.2 sqrtS cfgS initialState m1 p1 pAfter
      (2001/2)
      (by norm_num [generate_signal, riskOverrides, updatePriceHistory, updatePeak,
        positionManagement, executeDecision, cfgS, sqrtS, m1, p1, initialState,
        defaultConfig, _check_trade_limits, _check_drawdown_limits,
        _high_conviction_signal, rsiStage, bbStage, macdStage, _calculate_rsi,
        _calculate_bollinger_bands, _calculate_macd, _calculate_ema, _calculate_sma,
        _calculate_volatility, _calculate_optimal_position_size, positionFactor,
        performanceFactor, volFactor, pstdev, rsiDeltas, rsiGains, rsiLosses,
        rsiAvgGain, rsiAvgLoss, pyLast, pySliceFrom, truthyQ,
        Reason.isStopOrTrailing, abs_of_nonneg, abs_of_nonpos])
      (by norm_num [cfgS, defaultConfig])
      (by norm_num [initialState, cfgS, defaultConfig])⟩


theorem truncToSecond_den_one (t : ℚ) (h : t.den = 1) : truncToSecond t = t := by
  have h2 : ((t.num : ℤ) : ℚ) = t := by
    have h3 := Rat.num_div_den t
    rwa [h, Nat.cast_one, div_one] at h3
  rw [truncToSecond, ← h2, Int.floor_intCast]

theorem performanceFactor_trunc (wl : List Bool) :
    performanceFactor (if 50 < wl.length then pyLast wl 50 else wl) =
      performanceFactor wl := by
  split_ifs with h
  · have hlen : (pyLast wl 50).length = 50 :=
      pyLast_length wl (by norm_num) (by omega)
    have hpp : pyLast (pyLast wl 50) 5 = pyLast wl 5 := by
      rw [pyLast_eq_drop (pyLast wl 50) (by norm_num : (0:ℕ) < 5), hlen,
        pyLast_eq_drop wl (by norm_num : (0:ℕ) < 50),
        pyLast_eq_drop wl (by norm_num : (0:ℕ) < 5), List.drop_drop]
      congr 1
      omega
    rw [performanceFactor, performanceFactor, hlen, hpp,
      if_pos (by norm_num : (5:ℕ) ≤ 50), if_pos (by omega : 5 ≤ wl.length)]
  · rfl


set_option maxHeartbeats 2000000 in
theorem generate_signal_signal_congr (sqrtFn : ℚ → ℚ) (cfg : Config)
    (s : StrategyState) (ph : List ℚ) (wl : List Bool)
    (market : MarketSnapshot) (portfolio : Portfolio) (now : ℚ)
    (hperf : performanceFactor wl = performanceFactor s.win_loss_history) :
    (generate_signal sqrtFn cfg
      { s with
          price_history := ph
          win_loss_history := wl }
      market portfolio now).2 =
    (generate_signal sqrtFn cfg s market portfolio now).2 := by
  simp only [generate_signal, updatePriceHistory, updatePeak, _check_trade_limits,
    _check_drawdown_limits, positionManagement, riskOverrides, executeDecision,
    _calculate_optimal_position_size, hperf, ite_self,
    apply_ite Prod.snd, apply_ite Prod.fst,
    apply_ite StrategyState.last_signal, apply_ite StrategyState.entry_price,
    apply_ite StrategyState.entry_time, apply_ite StrategyState.trailing_high,
    apply_ite StrategyState.trailing_low,
    apply_ite StrategyState.consecutive_losses,
    apply_ite StrategyState.peak_portfolio_value,
    apply_ite StrategyState.trade_count, apply_ite StrategyState.last_trade_time,
    apply_ite StrategyState.win_loss_history,
    apply_ite StrategyState.recent_performance_score]


/-- Counterexample to C10: the reachable post-buy state `s1Buy` carries the
sub-second timestamp 1000.5 s; the export/import round-trip truncates it to
1000 s, which flips the cooldown comparison at clock reading 22600.25 s: the
original instance Holds (cooldown not yet elapsed) while the re-imported
instance Sells (trailing stop) on the same market and portfolio snapshots. -/
theorem claim_C10_counterexample :
    (generate_signal sqrtS cfgS initialState m1 p1 (2001/2)).1 = s1Buy ∧
    (generate_signal sqrtS cfgS s1Buy m2 pAfter now2).2.action = .hold ∧
    (generate_signal sqrtS cfgS (roundTrip s1Buy) m2 pAfter now2).2.action =
      .sell := by
  refine ⟨?_, ?_, ?_⟩ <;>
    norm_num [generate_signal, riskOverrides, updatePriceHistory, updatePeak,
      positionManagement, executeDecision, cfgS, sqrtS, m1, p1, m2, pAfter, now2,
      s1Buy, initialState, defaultConfig, roundTrip, get_state, set_state,
      truncToSecond, _check_trade_limits, _check_drawdown_limits,
      _high_conviction_signal, rsiStage, bbStage, macdStage, _calculate_rsi,
      _calculate_bollinger_bands, _calculate_macd, _calculate_ema, _calculate_sma,
      _calculate_volatility, _calculate_optimal_position_size, positionFactor,
      performanceFactor, volFactor, pstdev, rsiDeltas, rsiGains, rsiLosses,
      rsiAvgGain, rsiAvgLoss, pyLast, pySliceFrom, truthyQ, Reason.isStopOrTrailing,
      abs_of_nonneg, abs_of_nonpos]

/-- C10 (amended): the round-trip preserves the next decision whenever the
stored timestamps are whole-second values (integral rationals); the general
claim fails only through the seconds-precision truncation of `entry_time` /
`last_trade_time` (the cleared price history and the win/loss truncation to
the last 50 entries never affect a decision). -/
theorem claim_C10_amended_roundtrip_decision :
    ∀ (sqrtFn : ℚ → ℚ) (cfg : Config) (s : StrategyState)
      (market : MarketSnapshot) (portfolio : Portfolio) (now : ℚ),
    (∀ t, s.entry_time = some t → t.den = 1) →
    (∀ t, s.last_trade_time = some t → t.den = 1) →
    (generate_signal sqrtFn cfg (roundTrip s) market portfolio now).2 =
      (generate_signal sqrtFn cfg s market portfolio now).2 := by
  intro sqrtFn cfg s market portfolio now h1 h2
  have het : s.entry_time.map truncToSecond = s.entry_time := by
    cases h : s.entry_time with
    | none => rfl
    | some t => simp [truncToSecond_den_one t (h1 t h)]
  have hlt : s.last_trade_time.map truncToSecond = s.last_trade_time := by
    cases h : s.last_trade_time with
    | none => rfl
    | some t => simp [truncToSecond_den_one t (h2 t h)]
  have hrt : roundTrip s =
      { s with
          price_history := ([] : List ℚ)
          win_loss_history :=
            if 50 < s.win_loss_history.length then pyLast s.win_loss_history 50
            else s.win_loss_history } := by
    simp only [roundTrip, set_state, get_state, het, hlt]
  rw [hrt]
  exact generate_signal_signal_congr sqrtFn cfg s _ _ market portfolio now
    (performanceFactor_trunc s.win_loss_history)

/-- Witness for the C10 amended theorem: the post-buy state `sABuy` has
whole-second timestamps, so its round-trip yields the same decision. -/
theorem claim_C10_amended_roundtrip_decision_witness :
    (generate_signal sqrtS cfgS (roundTrip sABuy) mB3 pB 0).2 =
      (generate_signal sqrtS cfgS sABuy mB3 pB 0).2 :=
  claim_C10_amended_roundtrip_decision sqrtS cfgS sABuy mB3 pB 0
    (fun t ht => by injection ht with h; rw [← h]; rfl)
    (fun t ht => by injection ht with h; rw [← h]; rfl)

end HighConviction
